import Mathlib

/-!
Verification of the name-resolution, device-selection, export-driver and
compile-helper logic of the distributed-computing repository
(scripts/qaihub_download_models.py and scripts/qaihub_compile.py).

The Python code is shallowly embedded: every Python string operation used by
the scripts (str.lower, single-character str.replace, str.strip, str.split,
substring tests, slicing) is modelled by an executable function over the
underlying character list, and each script function that the claims mention
is translated branch-for-branch.  Effects (subprocess calls, the filesystem,
the wall clock, the vendor SDK) are passed in explicitly as environment
records, so that the scripts' own decision logic stays pure and provable.
-/

/- ## Python string primitives -/

/-- Python `s.lower()` (ASCII case folding, which is all the scripts use). -/
def pyLower (s : String) : String := String.mk (s.data.map Char.toLower)

/-- Python `s.replace(src, dst)` for single-character `src`/`dst`, the only
form the scripts use. -/
def replaceChar (src dst : Char) (s : String) : String :=
  String.mk (s.data.map fun c => if c = src then dst else c)

/-- Python `s.strip()`: drop leading and trailing whitespace. -/
def pyStrip (s : String) : String :=
  String.mk (((s.data.dropWhile Char.isWhitespace).reverse.dropWhile
    Char.isWhitespace).reverse)

/-- Python `s.startswith(p)`. -/
def pyStartsWith (s p : String) : Bool := p.data.isPrefixOf s.data

/-- Helper for Python's `needle in hay` substring test. -/
def subListAux (needle : List Char) : List Char → Bool
  | [] => needle.isEmpty
  | c :: t => needle.isPrefixOf (c :: t) || subListAux needle t

/-- Python `needle in hay` on strings. -/
def strContains (hay needle : String) : Bool := subListAux needle.data hay.data

/-- Helper for Python `s.split(sep)` with an explicit single-character
separator (keeps empty fields, as Python does). -/
def splitOnCharAux (sep : Char) : List Char → List Char → List String
  | [], acc => [String.mk acc.reverse]
  | c :: t, acc =>
    if c = sep then String.mk acc.reverse :: splitOnCharAux sep t []
    else splitOnCharAux sep t (c :: acc)

/-- Python `s.split(sep)` for a single-character separator. -/
def pySplitOn (sep : Char) (s : String) : List String := splitOnCharAux sep s.data []

/-- Helper for Python `s.split()` (no argument: split on whitespace runs,
discarding empty fields). -/
def splitWsAux : List Char → List Char → List String
  | [], acc => if acc.isEmpty then [] else [String.mk acc.reverse]
  | c :: t, acc =>
    if Char.isWhitespace c then
      if acc.isEmpty then splitWsAux t [] else String.mk acc.reverse :: splitWsAux t []
    else splitWsAux t (c :: acc)

/-- Python `s.split()` with no argument. -/
def pySplitWs (s : String) : List String := splitWsAux s.data []

/- ## Model name resolution (qaihub_download_models.py lines 46-262) -/

/-- MODEL_ALIASES from qaihub_download_models.py lines 48-63.  A Python dict
with literal distinct keys; lookup order is irrelevant, so an association
list is a faithful model. -/
def MODEL_ALIASES : List (String × String) :=
  [("stable-diffusion-v2.1", "stable_diffusion_v2_1"),
   ("stable_diffusion_v2.1", "stable_diffusion_v2_1"),
   ("sd-v2.1", "stable_diffusion_v2_1"),
   ("stable-diffusion-v1.5", "stable_diffusion_v1_5"),
   ("stable_diffusion_v1.5", "stable_diffusion_v1_5"),
   ("sd-v1.5", "stable_diffusion_v1_5"),
   ("llama-v3.2-3b-instruct", "llama_v3_2_3b_instruct"),
   ("llama-3.2-3b", "llama_v3_2_3b_instruct"),
   ("llama3.2-3b", "llama_v3_2_3b_instruct"),
   ("controlnet-canny", "controlnet_canny"),
   ("controlnet", "controlnet_canny")]

/-- Line 238: `requested.lower().replace("-", "_").replace(".", "_")`. -/
def pyNormalize (s : String) : String :=
  replaceChar '.' '_' (replaceChar '-' '_' (pyLower s))

/-- One alias-table probe (lines 244-255): if the key maps to a catalog
member return it, otherwise fall through (`none` covers both a missing key
and a mapped value that is not in the catalog). -/
def aliasStep (key : String) (available : List String) : Option String :=
  match MODEL_ALIASES.lookup key with
  | some r => if r ∈ available then some r else none
  | none => none

/-- Lines 257-260: first catalog entry related to the normalized input by
substring in either direction. -/
def fuzzyMatch (normalized : String) (available : List String) : Option String :=
  available.find? (fun m => strContains m normalized || strContains normalized m)

/-- resolve_model_name, qaihub_download_models.py lines 232-262. -/
def resolve_model_name (requested : String) (available : List String) : Option String :=
  if pyNormalize requested ∈ available then some (pyNormalize requested)
  else
    match aliasStep (replaceChar '_' '-' (pyLower requested)) available with
    | some r => some r
    | none =>
      match aliasStep (pyNormalize requested) available with
      | some r => some r
      | none => fuzzyMatch (pyNormalize requested) available

/- ## Resolver lemmas -/

lemma mem_transfer {α : Type} {a b : α} {l : List α} (h : a = b) (hb : b ∉ l) :
    a ∉ l := by
  subst h; exact hb

lemma aliasStep_none (key : String) (avail : List String)
    (h : ∀ r, MODEL_ALIASES.lookup key = some r → r ∉ avail) :
    aliasStep key avail = none := by
  unfold aliasStep
  split
  · rename_i r hl
    exact if_neg (h r hl)
  · rfl

lemma resolve_via_alias (req v : String) (avail : List String)
    (hl : MODEL_ALIASES.lookup (replaceChar '_' '-' (pyLower req)) = some v)
    (hn : pyNormalize req ∉ avail) (hv : v ∈ avail) :
    resolve_model_name req avail = some v := by
  unfold resolve_model_name aliasStep
  rw [if_neg hn, hl]
  simp [hv]

/-- Whatever resolve_model_name returns is a member of the catalog. -/
lemma resolve_mem (req : String) (avail : List String) (r : String)
    (h : resolve_model_name req avail = some r) : r ∈ avail := by
  unfold resolve_model_name at h
  split at h
  · rename_i hmem
    injection h with h1
    subst h1
    exact hmem
  · split at h
    · rename_i r' heq
      unfold aliasStep at heq
      split at heq
      · split at heq
        · rename_i hmem
          injection heq with h2
          injection h with h1
          subst h1; subst h2
          exact hmem
        · exact absurd heq (by simp)
      · exact absurd heq (by simp)
    · split at h
      · rename_i r' heq
        unfold aliasStep at heq
        split at heq
        · split at heq
          · rename_i hmem
            injection heq with h2
            injection h with h1
            subst h1; subst h2
            exact hmem
          · exact absurd heq (by simp)
        · exact absurd heq (by simp)
      · exact List.mem_of_find?_eq_some h

/- ## Claim C2 -/

/-- Claim C2 counterexample: the catalog entry "Foo" is requested verbatim,
but normalization lowercases the input first, so the resolver reports
not-found instead of returning "Foo". -/
theorem c2_counterexample :
    "Foo" ∈ ["Foo"] ∧ resolve_model_name "Foo" ["Foo"] = none := by decide

/-- Claim C2 (amended): for every requested name that is fixed by
normalization (lowercase, no hyphens or periods) and present verbatim in the
catalog list, resolve_model_name returns that exact name, even when the alias
table maps the same spelling to a different catalog member. -/
theorem c2_exact_match_priority (req : String) (avail : List String)
    (hfix : pyNormalize req = req) (hmem : req ∈ avail) :
    resolve_model_name req avail = some req := by
  unfold resolve_model_name
  rw [hfix, if_pos hmem]

/-- Claim C2 witness: "controlnet" is in the catalog and the alias table maps
"controlnet" to "controlnet_canny", yet the exact match wins. -/
theorem c2_witness :
    resolve_model_name "controlnet" ["controlnet", "controlnet_canny"] = some "controlnet" :=
  c2_exact_match_priority "controlnet" ["controlnet", "controlnet_canny"]
    (by decide) (by decide)

/- ## Claim C3 -/

/-- Claim C3 counterexample: the alias key "controlnet" maps to
"controlnet_canny", which is in the catalog, yet when the key itself is also
a catalog member the resolver returns the key (exact match fires first), not
the mapped value. -/
theorem c3_counterexample :
    MODEL_ALIASES.lookup "controlnet" = some "controlnet_canny" ∧
    "controlnet_canny" ∈ ["controlnet", "controlnet_canny"] ∧
    resolve_model_name "controlnet" ["controlnet", "controlnet_canny"] ≠
      some "controlnet_canny" := by decide

/-- For every alias pair, both spellings of the key feed the same alias-table
probe key and share one normalized form (checked by evaluation over the
concrete table). -/
lemma alias_pairs_ok : ∀ p ∈ MODEL_ALIASES,
    MODEL_ALIASES.lookup (replaceChar '_' '-' (pyLower (replaceChar '_' '-' p.1))) =
      some p.2 ∧
    MODEL_ALIASES.lookup (replaceChar '_' '-' (pyLower (replaceChar '-' '_' p.1))) =
      some p.2 ∧
    pyNormalize (replaceChar '_' '-' p.1) = pyNormalize p.1 ∧
    pyNormalize (replaceChar '-' '_' p.1) = pyNormalize p.1 := by decide

/-- Claim C3 (amended): for every key of the static alias table whose mapped
value is a member of the catalog list and whose normalized form is not itself
a catalog member, resolve_model_name applied to that key - in either its
hyphenated or its underscored spelling - returns the mapped value. -/
theorem c3_alias_resolution (k v : String) (avail : List String)
    (hkv : (k, v) ∈ MODEL_ALIASES) (hv : v ∈ avail)
    (hn : pyNormalize k ∉ avail) :
    resolve_model_name (replaceChar '_' '-' k) avail = some v ∧
    resolve_model_name (replaceChar '-' '_' k) avail = some v := by
  obtain ⟨hl1, hl2, he1, he2⟩ := alias_pairs_ok (k, v) hkv
  exact ⟨resolve_via_alias _ _ _ hl1 (mem_transfer he1 hn) hv,
         resolve_via_alias _ _ _ hl2 (mem_transfer he2 hn) hv⟩

/-- Claim C3 witness: the alias key "sd-v1.5" resolves to
"stable_diffusion_v1_5" in both spellings. -/
theorem c3_witness :
    resolve_model_name (replaceChar '_' '-' "sd-v1.5") ["stable_diffusion_v1_5"] =
      some "stable_diffusion_v1_5" ∧
    resolve_model_name (replaceChar '-' '_' "sd-v1.5") ["stable_diffusion_v1_5"] =
      some "stable_diffusion_v1_5" :=
  c3_alias_resolution "sd-v1.5" "stable_diffusion_v1_5" ["stable_diffusion_v1_5"]
    (by decide) (by decide) (by decide)

/- ## Claim C4 -/

/-- Claim C4 (confirmed): a requested name whose normalized form is not a
catalog member, is not mapped through the alias table to a catalog member (in
either spelling the code probes), and has no substring relationship in either
direction with any catalog entry, resolves to none. -/
theorem c4_not_found (req : String) (avail : List String)
    (h1 : pyNormalize req ∉ avail)
    (h2 : ∀ r, MODEL_ALIASES.lookup (replaceChar '_' '-' (pyLower req)) = some r →
      r ∉ avail)
    (h3 : ∀ r, MODEL_ALIASES.lookup (pyNormalize req) = some r → r ∉ avail)
    (h4 : ∀ m ∈ avail, strContains m (pyNormalize req) = false ∧
      strContains (pyNormalize req) m = false) :
    resolve_model_name req avail = none := by
  unfold resolve_model_name
  rw [if_neg h1, aliasStep_none _ _ h2, aliasStep_none _ _ h3]
  unfold fuzzyMatch
  rw [List.find?_eq_none]
  intro m hm
  simp [(h4 m hm).1, (h4 m hm).2]

/-- Claim C4 witness: "zzz" against the catalog ["alpha"]. -/
theorem c4_witness : resolve_model_name "zzz" ["alpha"] = none :=
  c4_not_found "zzz" ["alpha"] (by decide)
    (fun r hr => by
      rw [show MODEL_ALIASES.lookup (replaceChar '_' '-' (pyLower "zzz")) = none
        from by decide] at hr
      exact Option.noConfusion hr)
    (fun r hr => by
      rw [show MODEL_ALIASES.lookup (pyNormalize "zzz") = none from by decide] at hr
      exact Option.noConfusion hr)
    (by decide)

/- ## Device auto-selection (qaihub_download_models.py lines 135-200) -/

/-- The three brand alternatives of the regex
`(Snapdragon[^\|]+|Samsung[^\|]+|Google[^\|]+)` on line 172, in the order the
alternation tries them. -/
def deviceAlternatives : List (List Char) :=
  ["Snapdragon".data, "Samsung".data, "Google".data]

/-- `re.search` for the pattern above: scan left to right for the earliest
position where one of the brand words starts and at least one non-pipe
character follows it; the greedy `[^\|]+` then captures up to the first pipe
or the end of the line. -/
def regexCapture : List Char → Option (List Char)
  | [] => none
  | c :: t =>
    match deviceAlternatives.findSome? (fun w =>
      if w.isPrefixOf (c :: t) then
        match ((c :: t).drop w.length).takeWhile (fun ch => ch ≠ '|') with
        | [] => none
        | e :: es => some (w ++ (e :: es))
      else none) with
    | some cap => some cap
    | none => regexCapture t

/-- Lines 160-175: strip the line, skip blanks / separator rows / header
rows, take the first whitespace-delimited token as the provisional device
name, and when the line mentions a known brand try to extract a fuller name
with the regex.  Returns the (device_name, stripped line) pair appended to
`devices`. -/
def parseDeviceLine (rawLine : String) : Option (String × String) :=
  let line := pyStrip rawLine
  if line = "" || pyStartsWith line "-" || pyStartsWith line "Device" then none
  else
    match pySplitWs line with
    | [] => none
    | p :: _ =>
      let name :=
        if strContains line "Snapdragon" || strContains line "Galaxy" ||
            strContains line "Pixel" then
          match regexCapture line.data with
          | some cap => pyStrip (String.mk cap)
          | none => p
        else p
      some (name, line)

/-- auto_select_device, lines 135-200, applied to the stdout of a successful
`qai-hub list-devices` call (the subprocess-failure and exception paths
return a reason string and are not claim-relevant). -/
def auto_select_device (stdout : String) : String × String :=
  let devices := (pySplitOn '\n' (pyStrip stdout)).filterMap parseDeviceLine
  match devices with
  | [] => ("", "No devices found")
  | d0 :: _ =>
    match devices.find? (fun d =>
        strContains d.2 "Snapdragon X Elite" && strContains (pyLower d.2) "Windows") with
    | some d => (d.1, "Snapdragon X Elite + Windows (preferred)")
    | none =>
      match devices.find? (fun d => strContains d.2 "Snapdragon X Elite") with
      | some d => (d.1, "Snapdragon X Elite")
      | none =>
        match devices.find? (fun d =>
            strContains d.2 "Snapdragon" && strContains (pyLower d.2) "Windows") with
        | some d => (d.1, "Windows Snapdragon device")
        | none => (d0.1, "First available device (no Snapdragon X Elite found)")

/- ## Claim C1 -/

/-- A device listing with one line that is only chipset-specific (Linux OS)
followed by one fully-specific line carrying both the preferred chipset and
the desired OS. -/
def c1Listing : String :=
  "Snapdragon X Elite CRD-Linux | Linux\nSnapdragon X Elite CRD | Windows 11"

/-- Claim C1 (code bug): the fully-specific second line of `c1Listing`
contains both "Snapdragon X Elite" and "Windows", so by the function's own
docstring (priority 1: "Snapdragon X Elite + Windows") the selector should
return "Snapdragon X Elite CRD" with the priority-1 reason.  Instead the
priority-1 and priority-3 tests check for the capitalised literal "Windows"
inside `line.lower()`, which is all-lowercase, so they can never fire; the
selector falls to priority 2 and returns the device of the earlier,
less-specific Linux line. -/
theorem c1_case_bug :
    (strContains "Snapdragon X Elite CRD | Windows 11" "Snapdragon X Elite" = true ∧
     strContains "Snapdragon X Elite CRD | Windows 11" "Windows" = true) ∧
    auto_select_device c1Listing =
      ("Snapdragon X Elite CRD-Linux", "Snapdragon X Elite") := by decide

/- ## Export driver (qaihub_download_models.py lines 290-410) -/

/-- Result of one export attempt (dataclass ExportResult, lines 66-75).
Durations are modelled as rationals (Python floats from `time.time()`). -/
structure ExportResult where
  success : Bool
  requested_name : String
  resolved_name : String
  device : String
  output_path : String
  duration_seconds : ℚ
  error_msg : String := ""
deriving DecidableEq

/-- Outcome of the export subprocess call on lines 323-329: it finished with
an exit code and captured streams, it hit the timeout
(subprocess.TimeoutExpired), or some other exception was raised anywhere in
the try block (directory creation, flag detection, the call itself). -/
inductive ProcResult where
  | finished (returncode : Int) (stdout stderr : String)
  | timeout
  | raised (msg : String)
deriving DecidableEq

/-- Environment of one export_model call: the subprocess outcome, the state
of the filesystem probes (lines 335 and 347-353), and the wall-clock readings
taken at lines 301 and 331/390/401. -/
structure ExportEnv where
  proc : ProcResult
  outputDirNonempty : Bool
  fallbackFound : Bool
  startTime : ℚ
  endTime : ℚ
deriving DecidableEq

/-- Python truthiness choice `result.stderr.strip() or result.stdout.strip()`
on line 375. -/
def pyOrElse (a b : String) : String := if a ≠ "" then a else b

/-- Lines 377-378: `if len(error_msg) > 500: error_msg = error_msg[:500] + "..."`. -/
def truncateErr (s : String) : String :=
  if 500 < s.data.length then String.mk (s.data.take 500) ++ "..." else s

/-- export_model, qaihub_download_models.py lines 290-410.  The subprocess
invocation itself (command construction and flag-style detection, lines
308-329) is absorbed into `env.proc`; the function models how the outcome is
classified into an ExportResult. -/
def export_model (model_name device output_base target_runtime : String)
    (timeout_seconds : Int) (env : ExportEnv) : ExportResult :=
  let output_dir := output_base ++ "/" ++ model_name
  let duration := env.endTime - env.startTime
  match env.proc with
  | ProcResult.finished rc _stdout stderr =>
    if rc = 0 then
      if env.outputDirNonempty then
        { success := true, requested_name := model_name, resolved_name := model_name,
          device := device, output_path := output_dir, duration_seconds := duration }
      else if env.fallbackFound then
        { success := true, requested_name := model_name, resolved_name := model_name,
          device := device, output_path := output_dir, duration_seconds := duration }
      else
        { success := true, requested_name := model_name, resolved_name := model_name,
          device := device, output_path := output_dir, duration_seconds := duration,
          error_msg := "Export succeeded but output location unclear" }
    else
      { success := false, requested_name := model_name, resolved_name := model_name,
        device := device, output_path := "", duration_seconds := duration,
        error_msg := truncateErr (pyOrElse (pyStrip stderr) (pyStrip _stdout)) }
  | ProcResult.timeout =>
      { success := false, requested_name := model_name, resolved_name := model_name,
        device := device, output_path := "", duration_seconds := duration,
        error_msg := "Timeout after " ++ toString timeout_seconds ++ "s" }
  | ProcResult.raised msg =>
      { success := false, requested_name := model_name, resolved_name := model_name,
        device := device, output_path := "", duration_seconds := duration,
        error_msg := msg }

/- ## Substring sandwich lemmas (for "the message mentions the value") -/

lemma isPrefixOf_self_append (n suf : List Char) : n.isPrefixOf (n ++ suf) = true := by
  induction n with
  | nil => simp [List.isPrefixOf]
  | cons c t ih => simp [List.isPrefixOf, ih]

lemma subListAux_of_isPrefixOf (n hay : List Char) (h : n.isPrefixOf hay = true) :
    subListAux n hay = true := by
  cases hay with
  | nil =>
    cases n with
    | nil => rfl
    | cons c t => exact absurd h (by simp [List.isPrefixOf])
  | cons c t => simp [subListAux, h]

lemma subListAux_cons (n hay : List Char) (c : Char) (h : subListAux n hay = true) :
    subListAux n (c :: hay) = true := by
  simp [subListAux, h]

lemma subListAux_sandwich (pre n suf : List Char) :
    subListAux n (pre ++ (n ++ suf)) = true := by
  induction pre with
  | nil => exact subListAux_of_isPrefixOf n (n ++ suf) (isPrefixOf_self_append n suf)
  | cons c t ih => exact subListAux_cons n (t ++ (n ++ suf)) c ih

lemma strContains_sandwich (pre mid suf : String) :
    strContains (pre ++ mid ++ suf) mid = true := by
  unfold strContains
  rw [String.data_append, String.data_append, List.append_assoc]
  exact subListAux_sandwich pre.data mid.data suf.data

/- ## Claim C7 -/

/-- Claim C7 (confirmed): when the export subprocess exceeds the configured
timeout, export_model returns a failure whose error message is exactly
"Timeout after <timeout_seconds>s" and therefore mentions the configured
timeout value. -/
theorem c7_timeout_message (model_name device output_base target_runtime : String)
    (timeout_seconds : Int) (env : ExportEnv) (h : env.proc = ProcResult.timeout) :
    (export_model model_name device output_base target_runtime timeout_seconds
      env).success = false ∧
    (export_model model_name device output_base target_runtime timeout_seconds
      env).error_msg = "Timeout after " ++ toString timeout_seconds ++ "s" ∧
    strContains (export_model model_name device output_base target_runtime
      timeout_seconds env).error_msg (toString timeout_seconds) = true := by
  unfold export_model
  rw [h]
  exact ⟨rfl, rfl, strContains_sandwich "Timeout after " (toString timeout_seconds) "s"⟩

/-- Claim C7 witness: a 1800-second timeout yields the expected message. -/
theorem c7_witness :
    (export_model "stable_diffusion_v2_1" "DevX" "artifacts" "rt" 1800
      ⟨ProcResult.timeout, false, false, 0, 0⟩).success = false ∧
    (export_model "stable_diffusion_v2_1" "DevX" "artifacts" "rt" 1800
      ⟨ProcResult.timeout, false, false, 0, 0⟩).error_msg =
      "Timeout after " ++ toString (1800 : Int) ++ "s" ∧
    strContains (export_model "stable_diffusion_v2_1" "DevX" "artifacts" "rt" 1800
      ⟨ProcResult.timeout, false, false, 0, 0⟩).error_msg (toString (1800 : Int)) = true :=
  c7_timeout_message "stable_diffusion_v2_1" "DevX" "artifacts" "rt" 1800
    ⟨ProcResult.timeout, false, false, 0, 0⟩ rfl

/- ## Claim C8 -/

/-- A 501-character stderr payload. -/
def c8Stderr : String := String.mk (List.replicate 501 'a')

set_option maxRecDepth 100000 in
/-- Claim C8 counterexample: on a non-zero exit with a 501-character stderr,
the error message is not the stderr truncated to 500 characters (the code
appends an ellipsis, giving 503 characters), and it is not a truncation of
the (empty) stdout either. -/
theorem c8_counterexample :
    (export_model "m" "d" "out" "rt" 30
      ⟨ProcResult.finished 1 "" c8Stderr, false, false, 0, 0⟩).success = false ∧
    (export_model "m" "d" "out" "rt" 30
      ⟨ProcResult.finished 1 "" c8Stderr, false, false, 0, 0⟩).error_msg ≠
      String.mk (c8Stderr.data.take 500) ∧
    (export_model "m" "d" "out" "rt" 30
      ⟨ProcResult.finished 1 "" c8Stderr, false, false, 0, 0⟩).error_msg ≠ "" := by
  decide

/-- The error message of the amended claim C8, written from the amended
wording: the whitespace-stripped stderr - or the stripped stdout when stderr
strips to empty - truncated to its first 500 characters with an ellipsis
appended when longer than 500. -/
def spec_error_message (stdout stderr : String) : String :=
  let base := if pyStrip stderr = "" then pyStrip stdout else pyStrip stderr
  if base.data.length ≤ 500 then base else String.mk (base.data.take 500) ++ "..."

/-- Claim C8 (amended): for every export subprocess that exits non-zero,
export_model returns a failure result whose error message is the stripped
stderr (or stripped stdout when stderr strips to empty) truncated to its
first 500 characters, with "..." appended when it exceeds 500 characters. -/
theorem c8_nonzero_exit (model_name device output_base target_runtime : String)
    (timeout_seconds rc : Int) (stdout stderr : String) (env : ExportEnv)
    (hproc : env.proc = ProcResult.finished rc stdout stderr) (hrc : rc ≠ 0) :
    (export_model model_name device output_base target_runtime timeout_seconds
      env).success = false ∧
    (export_model model_name device output_base target_runtime timeout_seconds
      env).error_msg = spec_error_message stdout stderr := by
  simp only [export_model, hproc]
  rw [if_neg hrc]
  refine ⟨rfl, ?_⟩
  simp only [spec_error_message, truncateErr, pyOrElse]
  split_ifs <;> first | rfl | omega | simp_all

/-- Claim C8 witness: exit code 1 with a short, padded stderr gives the
stripped message. -/
theorem c8_witness :
    (export_model "m" "d" "out" "rt" 30
      ⟨ProcResult.finished 1 "ignored" "  boom ", false, false, 0, 0⟩).success = false ∧
    (export_model "m" "d" "out" "rt" 30
      ⟨ProcResult.finished 1 "ignored" "  boom ", false, false, 0, 0⟩).error_msg =
      spec_error_message "ignored" "  boom " :=
  c8_nonzero_exit "m" "d" "out" "rt" 30 1 "ignored" "  boom "
    ⟨ProcResult.finished 1 "ignored" "  boom ", false, false, 0, 0⟩ rfl (by decide)

/- ## Batch run (qaihub_download_models.py main, lines 498-605) -/

/-- The command-line arguments of the batch exporter that main consults. -/
structure Args where
  models : String
  device : String
  target_runtime : String
  output_base : String
  list_available : Bool
  dry_run : Bool
  timeout : Int
deriving DecidableEq

/-- Environment of one batch run: whether `qai-hub` validated (step 1), the
(name, reason) pair auto_select_device would produce (step 2), the discovered
catalog (step 3), and the per-model export environment (step 4). -/
structure RunEnv where
  configured : Bool
  autoDevice : String × String
  available : List String
  exportOf : String → ExportEnv

/-- Line 546: `[m.strip() for m in args.models.split(",") if m.strip()]`. -/
def requestedList (models : String) : List String :=
  ((pySplitOn ',' models).map pyStrip).filter (fun s => s ≠ "")

/-- Lines 517-526: use the explicit --device when non-empty, otherwise the
auto-selected device; an empty auto-selection is a fatal setup failure. -/
def selectedDevice (argsDevice autoName : String) : Option String :=
  if argsDevice ≠ "" then some argsDevice
  else if autoName = "" then none
  else some autoName

/-- One iteration of the export loop, lines 549-587: unresolvable names give
a not-found failure, dry runs give an immediate success record, otherwise
export_model runs and its requested_name field is overwritten with the
originally requested spelling (line 586). -/
def process_one (dry_run : Bool) (device output_base target_runtime : String)
    (timeout : Int) (available : List String) (exportOf : String → ExportEnv)
    (req : String) : ExportResult :=
  match resolve_model_name req available with
  | none =>
    { success := false, requested_name := req, resolved_name := req, device := device,
      output_path := "", duration_seconds := 0,
      error_msg := "Model not found in qai_hub_models" }
  | some resolved =>
    if dry_run then
      { success := true, requested_name := req, resolved_name := resolved,
        device := device, output_path := output_base ++ "/" ++ resolved,
        duration_seconds := 0, error_msg := "(dry-run)" }
    else
      { export_model resolved device output_base target_runtime timeout
          (exportOf resolved) with requested_name := req }

/-- The ordered result list of one batch run. -/
def batchOf (args : Args) (device : String) (env : RunEnv) : List ExportResult :=
  (requestedList args.models).map
    (process_one args.dry_run device args.output_base args.target_runtime
      args.timeout env.available env.exportOf)

/-- Observable outcome of main: an exit before the per-model loop with a
code, or the collected results plus the final exit code. -/
inductive MainOutcome where
  | early (code : Nat)
  | done (results : List ExportResult) (code : Nat)
deriving DecidableEq

/-- main, lines 498-605: validate tooling (exit 1), pick a device (exit 1 on
failure), discover the catalog (exit 1 when empty), optionally just list it
(exit 0), otherwise run the export loop and exit 0 exactly when at least one
result succeeded (lines 598-605). -/
def mainRun (args : Args) (env : RunEnv) : MainOutcome :=
  if env.configured = false then MainOutcome.early 1
  else
    match selectedDevice args.device env.autoDevice.1 with
    | none => MainOutcome.early 1
    | some device =>
      if env.available = [] then MainOutcome.early 1
      else if args.list_available then MainOutcome.early 0
      else
        MainOutcome.done (batchOf args device env)
          (if (batchOf args device env).countP (fun r => r.success) = 0 then 1 else 0)

/- ## Batch run lemmas -/

lemma mainRun_done_inv (args : Args) (env : RunEnv) (results : List ExportResult)
    (code : Nat) (h : mainRun args env = MainOutcome.done results code) :
    ∃ d, selectedDevice args.device env.autoDevice.1 = some d ∧
      results = batchOf args d env ∧
      code = (if (batchOf args d env).countP (fun r => r.success) = 0 then 1 else 0) := by
  unfold mainRun at h
  split at h
  · simp at h
  · split at h
    · simp at h
    · rename_i d hsel
      split at h
      · simp at h
      · split at h
        · simp at h
        · injection h with h1 h2
          exact ⟨d, hsel, h1.symm, h2.symm⟩

lemma mainRun_done_eq (args : Args) (env : RunEnv) (d : String)
    (hconf : env.configured = true)
    (hdev : selectedDevice args.device env.autoDevice.1 = some d)
    (hav : env.available ≠ []) (hlist : args.list_available = false) :
    mainRun args env = MainOutcome.done (batchOf args d env)
      (if (batchOf args d env).countP (fun r => r.success) = 0 then 1 else 0) := by
  unfold mainRun
  rw [hconf, hdev]
  simp [hav, hlist]

lemma export_model_fields (model_name device output_base target_runtime : String)
    (timeout_seconds : Int) (env : ExportEnv) :
    (export_model model_name device output_base target_runtime timeout_seconds
      env).resolved_name = model_name ∧
    (export_model model_name device output_base target_runtime timeout_seconds
      env).duration_seconds = env.endTime - env.startTime := by
  rcases env with ⟨proc, o, fb, st, en⟩
  cases proc <;> simp only [export_model] <;>
    first
      | exact ⟨trivial, trivial⟩
      | (split_ifs <;> exact ⟨rfl, rfl⟩)

/- ## Claim C5 -/

/-- Claim C5 (confirmed): in any batch run that reaches the export loop, the
exit code is 0 if and only if at least one result succeeded; an unconfigured
tool or an empty catalog exits 1 before any per-item work; and when every
requested name is unresolvable all results are failures and the exit code
is 1. -/
theorem c5_exit_code (args : Args) (env : RunEnv) :
    (∀ results code, mainRun args env = MainOutcome.done results code →
      (code = 0 ↔ ∃ r ∈ results, r.success = true)) ∧
    (env.configured = false → mainRun args env = MainOutcome.early 1) ∧
    (env.configured = true → selectedDevice args.device env.autoDevice.1 ≠ none →
      env.available = [] → mainRun args env = MainOutcome.early 1) ∧
    ((∀ req ∈ requestedList args.models, resolve_model_name req env.available = none) →
      ∀ results code, mainRun args env = MainOutcome.done results code →
        code = 1 ∧ ∀ r ∈ results, r.success = false) := by
  refine ⟨?_, ?_, ?_, ?_⟩
  · intro results code h
    obtain ⟨d, hsel, hres, hcode⟩ := mainRun_done_inv args env results code h
    subst hres
    subst hcode
    by_cases hz : (batchOf args d env).countP (fun r => r.success) = 0
    · rw [if_pos hz]
      constructor
      · intro h10
        exact absurd h10 (by omega)
      · rintro ⟨r, hrmem, hrs⟩
        have hc := List.countP_eq_zero.mp hz r hrmem
        simp [hrs] at hc
    · rw [if_neg hz]
      constructor
      · intro _
        exact List.countP_pos_iff.mp (Nat.pos_of_ne_zero hz)
      · intro _
        rfl
  · intro hconf
    simp [mainRun, hconf]
  · intro hconf hsel hav
    obtain ⟨d, hd⟩ := Option.ne_none_iff_exists'.mp hsel
    simp [mainRun, hconf, hd, hav]
  · intro hall results code h
    obtain ⟨d, hsel, hres, hcode⟩ := mainRun_done_inv args env results code h
    subst hres
    subst hcode
    have hfail : ∀ r ∈ batchOf args d env, r.success = false := by
      intro r hr
      obtain ⟨req, hreq, rfl⟩ := List.mem_map.mp hr
      unfold process_one
      rw [hall req hreq]
    refine ⟨?_, hfail⟩
    have hz : (batchOf args d env).countP (fun r => r.success) = 0 :=
      List.countP_eq_zero.mpr (fun r hr => by simp [hfail r hr])
    rw [if_pos hz]

/-- Setup arguments used by the C5 witness. -/
def c5Args : Args :=
  { models := "stable_diffusion_v2_1", device := "DevX", target_runtime := "rt",
    output_base := "out", list_available := false, dry_run := true, timeout := 1800 }

/-- Environment where qai-hub is not configured. -/
def c5EnvUnconfigured : RunEnv :=
  { configured := false, autoDevice := ("", ""), available := ["stable_diffusion_v2_1"],
    exportOf := fun _ => ⟨ProcResult.timeout, false, false, 0, 0⟩ }

/-- Environment with configured tooling but an empty catalog. -/
def c5EnvEmptyCatalog : RunEnv :=
  { configured := true, autoDevice := ("DevY", "first"), available := [],
    exportOf := fun _ => ⟨ProcResult.timeout, false, false, 0, 0⟩ }

/-- Claim C5 witness: both setup failures exit with code 1 before any
per-item work. -/
theorem c5_witness :
    mainRun c5Args c5EnvUnconfigured = MainOutcome.early 1 ∧
    mainRun c5Args c5EnvEmptyCatalog = MainOutcome.early 1 :=
  ⟨(c5_exit_code c5Args c5EnvUnconfigured).2.1 rfl,
   (c5_exit_code c5Args c5EnvEmptyCatalog).2.2.1 rfl (by decide) rfl⟩

/- ## Claim C6 -/

/-- Claim C6 (confirmed): under a monotone wall clock, every ExportResult
of a batch run that reaches the export loop satisfies the invariant: when
success is true the resolved name is a member of the discovered catalog, and
the duration is never negative. -/
theorem c6_result_invariant (args : Args) (env : RunEnv)
    (hclock : ∀ m, (env.exportOf m).startTime ≤ (env.exportOf m).endTime)
    (results : List ExportResult) (code : Nat)
    (h : mainRun args env = MainOutcome.done results code) :
    ∀ r ∈ results, (r.success = true → r.resolved_name ∈ env.available) ∧
      0 ≤ r.duration_seconds := by
  obtain ⟨d, hsel, hres, hcode⟩ := mainRun_done_inv args env results code h
  subst hres
  intro r hr
  obtain ⟨req, hreq, rfl⟩ := List.mem_map.mp hr
  unfold process_one
  cases hresolve : resolve_model_name req env.available with
  | none => simp
  | some m =>
    by_cases hdry : args.dry_run
    · simp only [hdry, if_true]
      exact ⟨fun _ => resolve_mem req env.available m hresolve, le_refl 0⟩
    · simp only [hdry, if_false, Bool.false_eq_true]
      have hf := export_model_fields m d args.output_base args.target_runtime
        args.timeout (env.exportOf m)
      constructor
      · intro _
        rw [hf.1]
        exact resolve_mem req env.available m hresolve
      · rw [hf.2]
        exact sub_nonneg.mpr (hclock m)

/-- Arguments used by the C6 witness. -/
def c6Args : Args :=
  { models := "controlnet", device := "DevZ", target_runtime := "rt",
    output_base := "out", list_available := false, dry_run := true, timeout := 60 }

/-- Environment used by the C6 witness. -/
def c6Env : RunEnv :=
  { configured := true, autoDevice := ("DevZ", "first"), available := ["controlnet_canny"],
    exportOf := fun _ => ⟨ProcResult.timeout, false, false, 0, 0⟩ }

/-- The single result of the C6 witness run. -/
def c6Result : ExportResult :=
  { success := true, requested_name := "controlnet", resolved_name := "controlnet_canny",
    device := "DevZ", output_path := "out/controlnet_canny", duration_seconds := 0,
    error_msg := "(dry-run)" }

/-- Claim C6 witness: the result of a concrete run satisfies the invariant. -/
theorem c6_witness :
    (c6Result.success = true → c6Result.resolved_name ∈ c6Env.available) ∧
    0 ≤ c6Result.duration_seconds :=
  c6_result_invariant c6Args c6Env (fun _ => le_refl _) [c6Result] 0 (by decide)
    c6Result (by decide)

/- ## Claim C10 -/

/-- Claim C10 (confirmed): in dry-run mode the batch outcome does not depend
on the export subprocess environment at all, every requested model that
resolves to a catalog member yields a success record with output path
`<output-base>/<resolved-name>` and duration 0, and a dry run with at least
one resolvable model exits with code 0. -/
theorem c10_dry_run (args : Args) (env : RunEnv) (d : String)
    (hdry : args.dry_run = true) (hconf : env.configured = true)
    (hdev : selectedDevice args.device env.autoDevice.1 = some d)
    (hav : env.available ≠ []) (hlist : args.list_available = false) :
    (∀ e2, mainRun args { env with exportOf := e2 } = mainRun args env) ∧
    (∀ results code, mainRun args env = MainOutcome.done results code →
      (∀ (i : Nat) (req m : String), (requestedList args.models)[i]? = some req →
        resolve_model_name req env.available = some m →
        results[i]? = some
          ({ success := true, requested_name := req, resolved_name := m,
             device := d, output_path := args.output_base ++ "/" ++ m,
             duration_seconds := 0, error_msg := "(dry-run)" } : ExportResult)) ∧
      ((∃ req ∈ requestedList args.models,
          (resolve_model_name req env.available).isSome = true) → code = 0)) := by
  have hbatch : ∀ e2, batchOf args d { env with exportOf := e2 } = batchOf args d env := by
    intro e2
    unfold batchOf
    apply List.map_congr_left
    intro req _
    unfold process_one
    cases resolve_model_name req env.available with
    | none => rfl
    | some m => simp [hdry]
  constructor
  · intro e2
    rw [mainRun_done_eq args { env with exportOf := e2 } d hconf hdev hav hlist,
      mainRun_done_eq args env d hconf hdev hav hlist, hbatch e2]
  · intro results code h
    obtain ⟨d', hsel, hres, hcode⟩ := mainRun_done_inv args env results code h
    have hdd : d' = d := by
      have := hdev.symm.trans hsel
      injection this with h1
      exact h1.symm
    subst hdd
    subst hres
    subst hcode
    constructor
    · intro i req m hi hm
      unfold batchOf
      rw [List.getElem?_map, hi, Option.map_some']
      unfold process_one
      rw [hm]
      simp [hdry]
    · rintro ⟨req, hreq, hsome⟩
      obtain ⟨m, hm⟩ := Option.isSome_iff_exists.mp hsome
      have hmem : process_one args.dry_run d' args.output_base args.target_runtime
          args.timeout env.available env.exportOf req ∈ batchOf args d' env :=
        List.mem_map_of_mem _ hreq
      have hsucc : (process_one args.dry_run d' args.output_base args.target_runtime
          args.timeout env.available env.exportOf req).success = true := by
        unfold process_one
        rw [hm]
        simp [hdry]
      have hpos : 0 < (batchOf args d' env).countP (fun r => r.success) :=
        List.countP_pos_iff.mpr ⟨_, hmem, hsucc⟩
      rw [if_neg (by omega)]

/-- Arguments of the C10 witness: a dry run over one resolvable and one
unresolvable name. -/
def c10Args : Args :=
  { models := "sd-v1.5,unknown-model", device := "DevX", target_runtime := "rt",
    output_base := "artifacts", list_available := false, dry_run := true, timeout := 60 }

/-- Environment of the C10 witness. -/
def c10Env : RunEnv :=
  { configured := true, autoDevice := ("", "unused"), available := ["stable_diffusion_v1_5"],
    exportOf := fun _ => ⟨ProcResult.timeout, false, false, 0, 0⟩ }

/-- A second, different export environment: dry runs must not look at it. -/
def c10AltExport : String → ExportEnv :=
  fun _ => ⟨ProcResult.raised "boom", true, true, 3, 7⟩

/-- The result list of the C10 witness run. -/
def c10Results : List ExportResult := batchOf c10Args "DevX" c10Env

/-- Claim C10 witness: the dry run ignores the export environment, and its
first result is the expected dry-run success record. -/
theorem c10_witness :
    mainRun c10Args { c10Env with exportOf := c10AltExport } = mainRun c10Args c10Env ∧
    c10Results[0]? = some
      ({ success := true, requested_name := "sd-v1.5",
         resolved_name := "stable_diffusion_v1_5", device := "DevX",
         output_path := "artifacts" ++ "/" ++ "stable_diffusion_v1_5",
         duration_seconds := 0, error_msg := "(dry-run)" } : ExportResult) := by
  have hc := c10_dry_run c10Args c10Env "DevX" rfl rfl (by decide) (by decide) rfl
  refine ⟨hc.1 c10AltExport, ?_⟩
  exact (hc.2 c10Results 0 (by decide)).1 0 "sd-v1.5" "stable_diffusion_v1_5"
    (by decide) (by decide)

/- ## Compile helper (qaihub_compile.py) -/

/-- A status object returned by `job.get_status()`.  `hasRunning` models
Python's `hasattr(st, "running")` probe used on line 156. -/
structure JobStatus where
  message : String
  success : Bool
  running : Bool
  hasRunning : Bool := true
deriving DecidableEq

/-- The JSON object printed by the status command (lines 152-159).  Optional
fields model keys that are absent from the Python dict in some branches. -/
structure StatusOut where
  job_id : String
  status : String
  success : Bool
  running : Option Bool := none
  error : Option String := none
deriving DecidableEq

/-- do_status, qaihub_compile.py lines 147-159.  The whole body sits in one
try/except, so a vendor SDK exception from `get_job`/`get_status` (modelled
as `Except.error`) is converted into the error JSON object instead of
propagating; the function is total. -/
def do_status (jobId : String) (res : Except String JobStatus) : StatusOut :=
  match res with
  | Except.ok st =>
    { job_id := jobId, status := st.message, success := st.success,
      running := some (if st.hasRunning then st.running else false) }
  | Except.error e =>
    { job_id := jobId, status := "error", success := false, error := some e }

/-- The JSON object printed by the compile command (lines 111-144). -/
structure CompileOut where
  ok : Bool
  job_id : Option String := none
  job_url : Option String := none
  status : Option String := none
  device : Option String := none
  error : Option String := none
  artifact_path : Option String := none
  download_error : Option String := none
deriving DecidableEq

/-- The vendor SDK as seen by one do_compile invocation.  Each operation
either returns a value or raises (Except.error); `getStatus n` is the result
of the n-th `job.get_status()` call of the wait loop. -/
structure CompileEnv where
  devices : Except String (List String)
  fileExists : Bool
  submit : Except String String
  getStatus : Nat → Except String JobStatus
  getTarget : Except String Bool
  download : Except String Unit

/-- The wait loop of do_compile (lines 122-131): poll `get_status` until the
job reports success or stops running, sleeping between polls.  The loop has
no bound in the source; `fuel` bounds the unrolling here, and `none` stands
for "still polling after `fuel` iterations".  An exception from a poll is NOT
caught by any handler in do_compile and therefore propagates. -/
def pollLoop (getStatus : Nat → Except String JobStatus) :
    Nat → Nat → Except String (Option JobStatus)
  | 0, _ => Except.ok none
  | fuel + 1, i =>
    match getStatus i with
    | Except.error e => Except.error e
    | Except.ok st =>
      if st.success then Except.ok (some st)
      else if st.running = false then Except.ok (some st)
      else pollLoop getStatus fuel (i + 1)

/-- do_compile, qaihub_compile.py lines 81-144.  `Except.error` in the result
is an exception that escaped the function (crashing the script);
`Except.ok none` is a wait loop that has not terminated within `fuel` polls;
`Except.ok (some out)` is the JSON object printed on stdout.  Only the
`submit_compile_job` call (lines 99-109) and the artifact download (lines
135-142) are wrapped in try/except; the device lookup on line 84 and the
`get_status` polls are not. -/
def do_compile (modelArg deviceArg : String) (wait : Bool) (out : String)
    (env : CompileEnv) (fuel : Nat) : Except String (Option CompileOut) :=
  match env.devices with
  | Except.error e => Except.error e
  | Except.ok [] =>
    Except.ok (some { ok := false, error := some ("No device found: " ++ deviceArg) })
  | Except.ok (_ :: _) =>
    if ¬(pyStartsWith modelArg "m" = true ∧ 3 < modelArg.data.length) ∧
        env.fileExists = false then
      Except.ok (some { ok := false, error := some ("Model file not found: " ++ modelArg) })
    else
      match env.submit with
      | Except.error e => Except.ok (some { ok := false, error := some e })
      | Except.ok jid =>
        let base : CompileOut :=
          { ok := true, job_id := some jid,
            job_url := some ("https://aihub.qualcomm.com/jobs/" ++ jid),
            status := some "submitted", device := some deviceArg }
        if wait = false then Except.ok (some base)
        else
          match pollLoop env.getStatus fuel 0 with
          | Except.error e => Except.error e
          | Except.ok none => Except.ok none
          | Except.ok (some st) =>
            let r1 : CompileOut :=
              if st.success then { base with status := some "success" }
              else { base with status := some ("failed: " ++ st.message), ok := false }
            if r1.ok = true ∧ out ≠ "" then
              match env.getTarget with
              | Except.error e => Except.ok (some { r1 with download_error := some e })
              | Except.ok false => Except.ok (some r1)
              | Except.ok true =>
                match env.download with
                | Except.error e => Except.ok (some { r1 with download_error := some e })
                | Except.ok _ =>
                  Except.ok (some { r1 with artifact_path := some (out ++ "/model.bin") })
            else Except.ok (some r1)

/- ## Claim C9 -/

/-- Environment of the C9 counterexample: a healthy SDK whose `get_status`
raises on the very first poll of the wait loop. -/
def c9Env : CompileEnv :=
  { devices := Except.ok ["Samsung Galaxy S24 (Family)"],
    fileExists := true,
    submit := Except.ok "j123",
    getStatus := fun _ => Except.error "ConnectionError: boom",
    getTarget := Except.ok false,
    download := Except.ok () }

/-- Claim C9 counterexample: an exception raised by the vendor SDK inside the
compile command's wait/poll loop is not caught anywhere in do_compile, so it
propagates and crashes the run instead of being converted into a structured
JSON failure result. -/
theorem c9_counterexample :
    do_compile "model.onnx" "Samsung Galaxy S24 (Family)" true "artifacts" c9Env 5 =
      Except.error "ConnectionError: boom" := rfl

/-- Claim C9 (amended): vendor SDK exceptions are caught at the call site and
converted into structured failure results in the status command and in the
compile command's submission call, but the compile command's device lookup
and its wait/poll status calls have no handler, so exceptions there
propagate. -/
theorem c9_exception_conversion (jobId e : String) (modelArg deviceArg out : String)
    (wait : Bool) (env : CompileEnv) (fuel : Nat) (d : String) (ds : List String) :
    (do_status jobId (Except.error e) =
      { job_id := jobId, status := "error", success := false, error := some e }) ∧
    (env.devices = Except.ok (d :: ds) →
      (pyStartsWith modelArg "m" = true ∧ 3 < modelArg.data.length) →
      env.submit = Except.error e →
      do_compile modelArg deviceArg wait out env fuel =
        Except.ok (some { ok := false, error := some e })) ∧
    (env.devices = Except.error e →
      do_compile modelArg deviceArg wait out env fuel = Except.error e) := by
  refine ⟨rfl, ?_, ?_⟩
  · intro hdev hmodel hsubmit
    simp only [do_compile, hdev, hsubmit]
    rw [if_neg (fun hcon => hcon.1 ⟨hmodel.1, hmodel.2⟩)]
  · intro hdev
    simp only [do_compile, hdev]

/-- Claim C9 witness: a concrete status-command exception is converted, and a
concrete submission exception yields the structured failure JSON. -/
theorem c9_witness :
    (do_status "j9" (Except.error "boom") =
      { job_id := "j9", status := "error", success := false, error := some "boom" }) ∧
    (do_compile "model.onnx" "Dev" false "" { c9Env with submit := Except.error "boom" } 5 =
      Except.ok (some { ok := false, error := some "boom" })) :=
  ⟨(c9_exception_conversion "j9" "boom" "model.onnx" "Dev" "" false
      { c9Env with submit := Except.error "boom" } 5 "Samsung Galaxy S24 (Family)" []).1,
   (c9_exception_conversion "j9" "boom" "model.onnx" "Dev" "" false
      { c9Env with submit := Except.error "boom" } 5 "Samsung Galaxy S24 (Family)" []).2.1
     rfl (by decide) rfl⟩
